import Mathlib

/-!
Verification of the poof-bg/js SDK core against its specification.

The development shallowly embeds the SDK's pure core:
* `detectMimeType`, `getExtension`, `toBlob`, `getFilename` from `src/utils.ts`,
* the `PoofError` hierarchy and `ERROR_MAP` from `src/errors.ts`,
* the request-building and response/error-handling logic of `Poof` from
  `src/client.ts`.

JavaScript runtime values that matter to the verified paths are modelled
explicitly: byte buffers are `List Nat`, parsed JSON values are `Jsonv`
(with `none : Option Jsonv` standing for JS `undefined` where a field may be
absent), and a thrown error object is a `JsError` record carrying the
constructor name (`Error.name`, which every class in `src/errors.ts` sets)
together with the fields of `PoofError`.  The error-classification path
produces a `Thrown` value, because the JS bracket lookup on `ERROR_MAP`
consults the prototype chain: a code colliding with an inherited
`Object.prototype` member yields a non-error object or a `TypeError`
instead of a `PoofError`.
-/

/-- Model of a parsed JSON value as returned by `response.json()`.
Arrays are not needed by any verified path and are omitted. -/
inductive Jsonv where
  | str (s : String)
  | num (n : Int)
  | null
  | bool (b : Bool)
  | obj (fields : List (String × Jsonv))

/-- JS property lookup on an object: `j[k]`, with `none` for `undefined`
(absent key, or property access on a non-object primitive). -/
def jget (j : Jsonv) (k : String) : Option Jsonv :=
  match j with
  | .obj fields => go fields
  | _ => none
where go : List (String × Jsonv) → Option Jsonv
  | [] => none
  | (k', v) :: rest => if k' = k then some v else go rest

/-- Model of a thrown JS error object.  `name` is the `Error.name` string
(the `PoofError` subclasses in `src/errors.ts` each set their own);
`code`, `requestId`, `details` are the `PoofError` fields, kept as raw JS
values (`none` = `undefined`) because `PoofError.fromResponse` stores the
payload's properties verbatim.  A plain `new Error(msg)` has `name = "Error"`
and all `PoofError` fields `undefined`. -/
structure JsError where
  name : String
  message : String
  code : Option Jsonv
  status : Option Nat
  requestId : Option Jsonv
  details : Option Jsonv

/-- Plain `new Error(msg)` as thrown by `toBlob` in `src/utils.ts`. -/
def plainError (message : String) : JsError :=
  { name := "Error", message := message, code := none, status := none,
    requestId := none, details := none }

/-- The supported runtime input representations of `ImageInput`
(`src/types.ts`: `File | Blob | ArrayBuffer | Buffer | Uint8Array | string`),
plus `other` for any runtime value outside the closed set (its argument is
the JS `typeof` string used in the error message of `toBlob`).
`file` carries the `File`'s bytes, declared content type and name; `blob`
carries bytes and declared content type. -/
inductive ImageInput where
  | file (bytes : List Nat) (ctype : String) (fname : String)
  | blob (bytes : List Nat) (ctype : String)
  | arrayBuffer (bytes : List Nat)
  | uint8Array (bytes : List Nat)
  | nodeBuffer (bytes : List Nat)
  | path (p : String)
  | other (typeofStr : String)

/-- The `Blob` produced by `toBlob`: bytes plus content type. -/
structure BlobM where
  bytes : List Nat
  type : String

/-- Host environment seen by `src/utils.ts`: `isNode` mirrors the `isNode`
constant, and `fs p` gives the bytes of the file at path `p` (modelling a
successful `fs.readFile`; the verified claims never involve a failing read). -/
structure Env where
  isNode : Bool
  fs : String → List Nat

/-- Embedding of `detectMimeType` (`src/utils.ts` lines 7-26).  A JS read
`buffer[i]` past the end yields `undefined`, so the strict comparisons are
modelled with `List.get?`: an out-of-range read makes the comparison false.
The source's early-return inside the RIFF block (falling through to the GIF
check when the WEBP bytes are absent) is kept as the nested conditional. -/
def detectMimeType (buffer : List Nat) : String :=
  if buffer.get? 0 = some 0x89 ∧ buffer.get? 1 = some 0x50 ∧
     buffer.get? 2 = some 0x4e ∧ buffer.get? 3 = some 0x47 then
    "image/png"
  else if buffer.get? 0 = some 0xff ∧ buffer.get? 1 = some 0xd8 ∧
          buffer.get? 2 = some 0xff then
    "image/jpeg"
  else if buffer.get? 0 = some 0x52 ∧ buffer.get? 1 = some 0x49 ∧
          buffer.get? 2 = some 0x46 ∧ buffer.get? 3 = some 0x46 then
    -- RIFF header, check for WEBP; on failure control reaches the GIF check
    if buffer.get? 8 = some 0x57 ∧ buffer.get? 9 = some 0x45 ∧
       buffer.get? 10 = some 0x42 ∧ buffer.get? 11 = some 0x50 then
      "image/webp"
    else if buffer.get? 0 = some 0x47 ∧ buffer.get? 1 = some 0x49 ∧
            buffer.get? 2 = some 0x46 then
      "image/gif"
    else
      "application/octet-stream"
  else if buffer.get? 0 = some 0x47 ∧ buffer.get? 1 = some 0x49 ∧
          buffer.get? 2 = some 0x46 then
    "image/gif"
  else
    "application/octet-stream"

/-- Modelled from the spec: the content-type inference of §4.1 step 2 /
claim wording — the four signatures tried in priority order PNG, JPEG,
WEBP (RIFF at 0 and WEBP at 8), GIF, with `application/octet-stream` for
every prefix matching none. -/
def specDetectMimeType (buffer : List Nat) : String :=
  if buffer.get? 0 = some 0x89 ∧ buffer.get? 1 = some 0x50 ∧
     buffer.get? 2 = some 0x4e ∧ buffer.get? 3 = some 0x47 then
    "image/png"
  else if buffer.get? 0 = some 0xff ∧ buffer.get? 1 = some 0xd8 ∧
          buffer.get? 2 = some 0xff then
    "image/jpeg"
  else if (buffer.get? 0 = some 0x52 ∧ buffer.get? 1 = some 0x49 ∧
           buffer.get? 2 = some 0x46 ∧ buffer.get? 3 = some 0x46) ∧
          (buffer.get? 8 = some 0x57 ∧ buffer.get? 9 = some 0x45 ∧
           buffer.get? 10 = some 0x42 ∧ buffer.get? 11 = some 0x50) then
    "image/webp"
  else if buffer.get? 0 = some 0x47 ∧ buffer.get? 1 = some 0x49 ∧
          buffer.get? 2 = some 0x46 then
    "image/gif"
  else
    "application/octet-stream"

/-- Embedding of `getExtension` (`src/utils.ts` lines 29-37): extension for
a MIME type, `bin` as fallback. -/
def getExtension (mimeType : String) : String :=
  if mimeType = "image/png" then "png"
  else if mimeType = "image/jpeg" then "jpg"
  else if mimeType = "image/webp" then "webp"
  else if mimeType = "image/gif" then "gif"
  else "bin"

/-- The `mimeFromExt` table inside the path branch of `toBlob`
(`src/utils.ts` lines 81-87); `none` models a missing key, so that
`mimeFromExt[ext] || mimeType` becomes `(mimeFromExt ext).getD mimeType`. -/
def mimeFromExt (ext : String) : Option String :=
  if ext = "png" then some "image/png"
  else if ext = "jpg" then some "image/jpeg"
  else if ext = "jpeg" then some "image/jpeg"
  else if ext = "webp" then some "image/webp"
  else if ext = "gif" then some "image/gif"
  else none

/-- Split a character list on a separator, JS `String.prototype.split`
style: the result always has at least one (possibly empty) segment. -/
def splitOnChar (sep : Char) : List Char → List (List Char)
  | [] => [[]]
  | c :: rest =>
    let r := splitOnChar sep rest
    if c = sep then [] :: r
    else
      match r with
      | [] => [[c]]
      | s :: ss => (c :: s) :: ss

/-- Node's `path.extname` restricted to the basename's characters: the
suffix from the last dot, empty when there is no dot or the only dot leads
a dotfile such as `.bashrc`. -/
def extnameChars (b : List Char) : List Char :=
  let parts := splitOnChar '.' b
  if parts.length ≤ 1 then []
  else if parts.length = 2 ∧ parts.headD [] = [] then []
  else '.' :: parts.getLastD []

/-- Model of `path.extname(p)` on a POSIX host: the extension of the last
`/`-separated segment. -/
def extname (p : String) : String :=
  String.mk (extnameChars ((splitOnChar '/' p.toList).getLastD []))

/-- The `ext` computed in the path branch of `toBlob`
(`src/utils.ts` line 78): `path.extname(input).toLowerCase().slice(1)`,
character-wise: the extension is lowercased and its leading dot dropped. -/
def pathExt (p : String) : String :=
  String.mk
    (((extnameChars ((splitOnChar '/' p.toList).getLastD [])).map
      Char.toLower).drop 1)

/-- Embedding of `toBlob` (`src/utils.ts` lines 40-94).  The source's guard
chain is mirrored case by case: `File` and `Blob` satisfy the first
`instanceof Blob` check and are returned unchanged; `Buffer` is a subclass
of `Uint8Array` at runtime, so buffer inputs take the signature-detection
path in every environment; a path string outside Node throws a plain
`Error`, as does any value outside the supported set (with the JS `typeof`
string in the message). -/
def toBlob (input : ImageInput) (env : Env) : Except JsError BlobM :=
  match input with
  | .file bs t _ => .ok { bytes := bs, type := t }
  | .blob bs t => .ok { bytes := bs, type := t }
  | .arrayBuffer bs => .ok { bytes := bs, type := detectMimeType bs }
  | .uint8Array bs => .ok { bytes := bs, type := detectMimeType bs }
  | .nodeBuffer bs => .ok { bytes := bs, type := detectMimeType bs }
  | .path p =>
    if env.isNode then
      let buffer := env.fs p
      let mimeType := detectMimeType buffer
      let finalMimeType := (mimeFromExt (pathExt p)).getD mimeType
      .ok { bytes := buffer, type := finalMimeType }
    else
      .error (plainError
        "File paths are only supported in Node.js. Use a Blob or File in the browser.")
  | .other t => .error (plainError ("Unsupported input type: " ++ t))

/-- The path split of `getFilename` (`src/utils.ts` line 106):
`input.split(/[/\\]/)`, modelled by normalizing backslashes to slashes and
splitting on the slash. -/
def splitPathSegs (p : String) : List String :=
  (splitOnChar '/' (p.toList.map (fun c => if c = '\\' then '/' else c))).map
    String.mk

/-- Embedding of `getFilename` (`src/utils.ts` lines 97-112): a `File`'s
own name; for a Node path the last path segment with the generated
`image.<ext>` fallback when it is empty (JS `parts[last] || fallback`);
the generated name otherwise. -/
def getFilename (input : ImageInput) (mimeType : String) (env : Env) : String :=
  match input with
  | .file _ _ fname => fname
  | .path p =>
    if env.isNode then
      let last := (splitPathSegs p).getLastD ""
      if last = "" then "image." ++ getExtension mimeType else last
    else "image." ++ getExtension mimeType
  | _ => "image." ++ getExtension mimeType

/-- JS string coercion `String(v)` for the modelled JSON values, used by
the `Error` constructor when a non-string lands in `message`. -/
def jsToString : Jsonv → String
  | .str s => s
  | .num n => toString n
  | .null => "null"
  | .bool b => cond b "true" "false"
  | .obj _ => "[object Object]"

/-- The message stored by `super(message)` in the `PoofError` constructor
(`src/errors.ts` line 21): `new Error(undefined)` leaves an empty message,
any other value is string-coerced. -/
def errMessageOf : Option Jsonv → String
  | none => ""
  | some v => jsToString v

/-- Embedding of the own properties of `ERROR_MAP` (`src/errors.ts` lines
106-116), recording the `name` each mapped error class sets; `none` for a
code that is not an own key of the object literal.  The full JS bracket
lookup additionally consults the prototype chain — see `errorMapGet`. -/
def errorMap (code : String) : Option String :=
  if code = "authentication_error" then some "AuthenticationError"
  else if code = "permission_denied" then some "PermissionError"
  else if code = "payment_required" then some "PaymentRequiredError"
  else if code = "rate_limit_exceeded" then some "RateLimitError"
  else if code = "validation_error" then some "ValidationError"
  else if code = "missing_image" then some "ValidationError"
  else if code = "image_too_large" then some "ValidationError"
  else if code = "upstream_error" then some "ServerError"
  else if code = "internal_server_error" then some "ServerError"
  else none

/-- The string a bracket-lookup key coerces to: `undefined` coerces to
`"undefined"`, any other value via `String(v)`. -/
def jsKeyString : Option Jsonv → String
  | none => "undefined"
  | some v => jsToString v

/-- Property names every object literal inherits from `Object.prototype`
besides `constructor` (which is treated separately): reading any of them is
a truthy hit (a built-in function, or `Object.prototype` itself for the
`__proto__` accessor), but none of them is a constructor, so `new` on the
resulting value throws a `TypeError`. -/
def objectProtoMembers : List String :=
  ["hasOwnProperty", "isPrototypeOf", "propertyIsEnumerable", "toLocaleString",
   "toString", "valueOf", "__proto__", "__defineGetter__", "__defineSetter__",
   "__lookupGetter__", "__lookupSetter__"]

/-- What `ERROR_MAP[key]` resolves to: an own entry (one of the mapped
`PoofError` subclasses), the inherited `Object.prototype.constructor` (the
`Object` function, truthy), another inherited `Object.prototype` member
(truthy, not a constructor), or `undefined`, in which case
`|| PoofError` selects the base class. -/
inductive ErrorMapHit where
  | ownClass (cname : String)
  | protoConstructor
  | protoMember
  | miss

/-- The full JS bracket lookup on the `ERROR_MAP` object literal: own
properties first, then the `Object.prototype` chain. -/
def errorMapGet (key : String) : ErrorMapHit :=
  match errorMap key with
  | some cname => ErrorMapHit.ownClass cname
  | none =>
    if key = "constructor" then ErrorMapHit.protoConstructor
    else if key ∈ objectProtoMembers then ErrorMapHit.protoMember
    else ErrorMapHit.miss

/-- A value the error-classification path produces to be thrown: a
`PoofError`-hierarchy instance; the non-error object
`new Object(response.message, ...)` built when the code collides with the
inherited `constructor` (for a string message, a `String` wrapper object —
not a `PoofError`); or the `TypeError` raised by applying `new` to a
non-constructor inherited member. -/
inductive Thrown where
  | err (e : JsError)
  | objectWrapper (message : Option Jsonv)
  | typeError

/-- Embedding of `PoofError.fromResponse` (`src/errors.ts` lines 35-42) on
the raw parsed body: `ERROR_MAP[response.code] || PoofError` follows the JS
bracket lookup through the prototype chain; on a class hit (own entry or
the fallback), `new ErrorClass(...)` stores the payload's `message`,
`code`, `request_id` and `details` properties verbatim together with the
transport status; an inherited `constructor` hit returns
`new Object(response.message, ...)`; any other inherited hit makes `new`
throw a `TypeError`. -/
def PoofError.fromResponse (j : Jsonv) (status : Nat) : Thrown :=
  match errorMapGet (jsKeyString (jget j "code")) with
  | ErrorMapHit.ownClass cname =>
    Thrown.err
      { name := cname
        message := errMessageOf (jget j "message")
        code := jget j "code"
        status := some status
        requestId := jget j "request_id"
        details := jget j "details" }
  | ErrorMapHit.miss =>
    Thrown.err
      { name := "PoofError"
        message := errMessageOf (jget j "message")
        code := jget j "code"
        status := some status
        requestId := jget j "request_id"
        details := jget j "details" }
  | ErrorMapHit.protoConstructor => Thrown.objectWrapper (jget j "message")
  | ErrorMapHit.protoMember => Thrown.typeError

/-- The slice of a transport `Response` read by the verified paths:
`ok`, `status`, `statusText`, and the outcome of `response.json()`
(`none` when the body is not valid JSON and `json()` rejects). -/
structure Response where
  ok : Bool
  status : Nat
  statusText : String
  jsonBody : Option Jsonv

/-- Embedding of `Poof.handleError` (`src/client.ts` lines 162-176): when
`response.json()` rejects, a base `PoofError` with code `unknown_error` and
the `HTTP <status>: <statusText>` message; otherwise whatever
`PoofError.fromResponse` produces on the parsed body is thrown (a thrown
`TypeError` from construction propagates). -/
def Poof.handleError (r : Response) : Thrown :=
  match r.jsonBody with
  | none =>
    Thrown.err
      { name := "PoofError"
        message := "HTTP " ++ toString r.status ++ ": " ++ r.statusText
        code := some (Jsonv.str "unknown_error")
        status := some r.status
        requestId := none
        details := none }
  | some j => PoofError.fromResponse j r.status

/-- Embedding of `Poof.me` (`src/client.ts` lines 121-134): on a non-ok
response the `handleError` result is thrown; on success the parsed JSON
body is returned verbatim — the source performs no field mapping on it
(`return response.json()`).  A success body that is not valid JSON makes
`response.json()` reject with a `SyntaxError`. -/
def Poof.me (r : Response) : Except Thrown Jsonv :=
  if r.ok then
    match r.jsonBody with
    | some j => .ok j
    | none =>
      .error (Thrown.err
        { name := "SyntaxError", message := "Unexpected end of JSON input",
          code := none, status := none, requestId := none, details := none })
  else
    .error (Poof.handleError r)

/-- Outcome of the underlying transport `fetch` awaited inside
`Poof.fetch`: a response, an `AbortError` (the armed timeout fired), or any
other transport exception. -/
inductive FetchOutcome where
  | response (r : Response)
  | aborted
  | failed (e : JsError)

/-- Embedding of the `try`/`catch` of `Poof.fetch` (`src/client.ts`
lines 137-159): an `AbortError` is replaced by
`new PoofError('Request timeout', 'timeout', { status: 408 })`; any other
exception propagates unmodified. -/
def Poof.fetchModel (o : FetchOutcome) : Except JsError Response :=
  match o with
  | .response r => .ok r
  | .aborted =>
    .error { name := "PoofError", message := "Request timeout",
             code := some (Jsonv.str "timeout"), status := some 408,
             requestId := none, details := none }
  | .failed e => .error e

/-- Output format union `ImageFormat` (`src/types.ts`). -/
inductive ImageFormat where
  | png
  | jpg
  | webp

/-- The literal string carried by an `ImageFormat` value. -/
def ImageFormat.toStr : ImageFormat → String
  | .png => "png"
  | .jpg => "jpg"
  | .webp => "webp"

/-- Channel union `Channels` (`src/types.ts`). -/
inductive Channels where
  | rgba
  | rgb

/-- The literal string carried by a `Channels` value. -/
def Channels.toStr : Channels → String
  | .rgba => "rgba"
  | .rgb => "rgb"

/-- Size preset union `ImageSize` (`src/types.ts`). -/
inductive ImageSize where
  | full
  | preview
  | small
  | medium
  | large

/-- The literal string carried by an `ImageSize` value. -/
def ImageSize.toStr : ImageSize → String
  | .full => "full"
  | .preview => "preview"
  | .small => "small"
  | .medium => "medium"
  | .large => "large"

/-- `RemoveBackgroundOptions` (`src/types.ts`): every field optional,
`none` = the property is absent/`undefined`. -/
structure RemoveBackgroundOptions where
  format : Option ImageFormat
  channels : Option Channels
  bgColor : Option String
  size : Option ImageSize
  crop : Option Bool

/-- An entry appended to the outgoing `FormData`: the image file part or a
plain string field. -/
inductive FormVal where
  | filePart (bytes : List Nat) (ctype : String) (filename : String)
  | strField (s : String)

/-- Embedding of the `FormData` construction in `Poof.removeBackground`
(`src/client.ts` lines 76-84).  The truthiness guards of the source are
kept: `format`, `channels` and `size` hold non-empty literal strings when
present, so their guard is presence; `options.bgColor` is falsy when the
caller supplies the empty string, which is therefore omitted;
`options.crop !== undefined` keeps `crop: false`, serialized by
`String(options.crop)`. -/
def Poof.buildFormData (blob : BlobM) (filename : String)
    (o : RemoveBackgroundOptions) : List (String × FormVal) :=
  [("image_file", FormVal.filePart blob.bytes blob.type filename)]
    ++ (match o.format with
        | some f => [("format", FormVal.strField f.toStr)]
        | none => [])
    ++ (match o.channels with
        | some c => [("channels", FormVal.strField c.toStr)]
        | none => [])
    ++ (match o.bgColor with
        | some s => if s = "" then [] else [("bg_color", FormVal.strField s)]
        | none => [])
    ++ (match o.size with
        | some s => [("size", FormVal.strField s.toStr)]
        | none => [])
    ++ (match o.crop with
        | some b => [("crop", FormVal.strField (cond b "true" "false"))]
        | none => [])

/-- The `ApiErrorResponse` payload shape (`src/types.ts` lines 87-92):
`code`, `message`, optional `details`, `request_id`.  The `code` is kept as
an arbitrary string so that server-added codes outside the `ErrorCode`
union are representable, as `PoofError.fromResponse` anticipates. -/
structure ApiErrorResponse where
  code : String
  message : String
  details : Option String
  request_id : String

/-- The JSON object a well-shaped `ApiErrorResponse` body parses to;
an absent optional `details` means the key is missing entirely. -/
def ApiErrorResponse.toJson (p : ApiErrorResponse) : Jsonv :=
  Jsonv.obj
    ([("code", Jsonv.str p.code), ("message", Jsonv.str p.message)]
      ++ (match p.details with
          | some d => [("details", Jsonv.str d)]
          | none => [])
      ++ [("request_id", Jsonv.str p.request_id)])

/-- First entry for a field name in a form, as `FormData.get` reads it. -/
def formLookup (form : List (String × FormVal)) (k : String) : Option FormVal :=
  match form with
  | [] => none
  | (k', v) :: rest => if k' = k then some v else formLookup rest k

/-- A failure response whose body is valid JSON but not the expected
`ApiErrorResponse` payload shape. -/
def respBadShape : Response :=
  { ok := false, status := 500, statusText := "Internal Server Error",
    jsonBody := some (Jsonv.obj [("foo", Jsonv.str "bar")]) }

/-- The success body of end-to-end scenario 5 for `me()`, with the
snake_case keys of the wire contract. -/
def meBodySnake : Jsonv :=
  Jsonv.obj
    [("organization_id", Jsonv.str "o1"), ("plan", Jsonv.str "pro"),
     ("max_credits", Jsonv.num 1000), ("used_credits", Jsonv.num 200),
     ("auto_recharge_threshold", Jsonv.null)]

/-- The source's nested RIFF block agrees with the flat priority chain of
the spec: when the RIFF header matches but the WEBP bytes do not, the GIF
check cannot fire (byte 0 would have to be both `0x52` and `0x47`), so both
sides fall to `application/octet-stream`. -/
lemma detectMimeType_eq_spec (buffer : List Nat) :
    detectMimeType buffer = specDetectMimeType buffer := by
  unfold detectMimeType specDetectMimeType
  split_ifs <;> simp_all

/-- Only the first 12 bytes are ever inspected. -/
lemma detectMimeType_take12 (l : List Nat) :
    detectMimeType (l.take 12) = detectMimeType l := by
  rcases l with _ | ⟨a0, _ | ⟨a1, _ | ⟨a2, _ | ⟨a3, _ | ⟨a4, _ | ⟨a5, _ |
    ⟨a6, _ | ⟨a7, _ | ⟨a8, _ | ⟨a9, _ | ⟨a10, _ | ⟨a11, t⟩⟩⟩⟩⟩⟩⟩⟩⟩⟩⟩⟩ <;> rfl

/-- A well-shaped payload's `code` property. -/
lemma toJson_code (p : ApiErrorResponse) :
    jget p.toJson "code" = some (Jsonv.str p.code) := by
  obtain ⟨c, m, d, r⟩ := p
  cases d <;> rfl

/-- A well-shaped payload's `message` property. -/
lemma toJson_message (p : ApiErrorResponse) :
    jget p.toJson "message" = some (Jsonv.str p.message) := by
  obtain ⟨c, m, d, r⟩ := p
  cases d <;> rfl

/-- A well-shaped payload's `request_id` property. -/
lemma toJson_request_id (p : ApiErrorResponse) :
    jget p.toJson "request_id" = some (Jsonv.str p.request_id) := by
  obtain ⟨c, m, d, r⟩ := p
  cases d <;> rfl

/-- A well-shaped payload's `details` property: `undefined` exactly when
the optional field is absent. -/
lemma toJson_details (p : ApiErrorResponse) :
    jget p.toJson "details" = p.details.map Jsonv.str := by
  obtain ⟨c, m, d, r⟩ := p
  cases d <;> rfl

/-- C1: for the documented snake_case success body, `me()` hands the parsed
JSON object back verbatim — `return response.json()` performs no field
renaming — so the returned value carries `organization_id` and has no
`organizationId`, `maxCredits` or `autoRechargeThreshold` property, contrary
to the `AccountInfo` interface, the README's documented accessors and the
claimed direct field-name rename. -/
theorem c1_me_returns_body_verbatim :
    Poof.me { ok := true, status := 200, statusText := "OK",
              jsonBody := some meBodySnake } = .ok meBodySnake ∧
    jget meBodySnake "organization_id" = some (Jsonv.str "o1") ∧
    jget meBodySnake "organizationId" = none ∧
    jget meBodySnake "maxCredits" = none ∧
    jget meBodySnake "usedCredits" = none ∧
    jget meBodySnake "auto_recharge_threshold" = some Jsonv.null ∧
    jget meBodySnake "autoRechargeThreshold" = none :=
  ⟨rfl, rfl, rfl, rfl, rfl, rfl, rfl⟩

/-- C2 counterexample: the code `constructor`, outside the nine enumerated
codes (`errorMap` misses), does not yield the generic base `PoofError`
carrying the code verbatim — `ERROR_MAP["constructor"]` hits the inherited
`Object.prototype.constructor` (the truthy `Object` function), so
`fromResponse` returns `new Object(message)`, a `String` wrapper, instead;
and the code `toString` hits a non-constructor inherited member, so
construction throws a `TypeError`. -/
theorem c2_counterexample :
    errorMap "constructor" = none ∧
    PoofError.fromResponse
        (ApiErrorResponse.toJson
          { code := "constructor", message := "boom", details := none,
            request_id := "r1" }) 500 =
      Thrown.objectWrapper (some (Jsonv.str "boom")) ∧
    Thrown.objectWrapper (some (Jsonv.str "boom")) ≠
      Thrown.err { name := "PoofError", message := "boom",
                   code := some (Jsonv.str "constructor"), status := some 500,
                   requestId := some (Jsonv.str "r1"), details := none } ∧
    errorMap "toString" = none ∧
    PoofError.fromResponse
        (ApiErrorResponse.toJson
          { code := "toString", message := "boom", details := none,
            request_id := "r1" }) 500 = Thrown.typeError := by
  refine ⟨rfl, rfl, ?_, rfl, rfl⟩
  simp

/-- C2 amended: `PoofError.fromResponse` maps each of the nine enumerated
codes to the documented error class with the transport status and the
payload's `message`, `request_id`, `details` and `code` carried verbatim; a
code outside that set that is not a property name inherited from
`Object.prototype` yields the generic base `PoofError` carrying the code
verbatim; a code colliding with the inherited `constructor` instead
produces the non-error object `new Object(message)`, and one colliding with
any other inherited member makes construction throw a `TypeError`. -/
theorem c2_classify (p : ApiErrorResponse) (s : Nat) :
    (p.code = "authentication_error" →
      PoofError.fromResponse p.toJson s =
        Thrown.err { name := "AuthenticationError", message := p.message,
                     code := some (Jsonv.str p.code), status := some s,
                     requestId := some (Jsonv.str p.request_id),
                     details := p.details.map Jsonv.str }) ∧
    (p.code = "permission_denied" →
      PoofError.fromResponse p.toJson s =
        Thrown.err { name := "PermissionError", message := p.message,
                     code := some (Jsonv.str p.code), status := some s,
                     requestId := some (Jsonv.str p.request_id),
                     details := p.details.map Jsonv.str }) ∧
    (p.code = "payment_required" →
      PoofError.fromResponse p.toJson s =
        Thrown.err { name := "PaymentRequiredError", message := p.message,
                     code := some (Jsonv.str p.code), status := some s,
                     requestId := some (Jsonv.str p.request_id),
                     details := p.details.map Jsonv.str }) ∧
    (p.code = "rate_limit_exceeded" →
      PoofError.fromResponse p.toJson s =
        Thrown.err { name := "RateLimitError", message := p.message,
                     code := some (Jsonv.str p.code), status := some s,
                     requestId := some (Jsonv.str p.request_id),
                     details := p.details.map Jsonv.str }) ∧
    (p.code = "validation_error" ∨ p.code = "missing_image" ∨
        p.code = "image_too_large" →
      PoofError.fromResponse p.toJson s =
        Thrown.err { name := "ValidationError", message := p.message,
                     code := some (Jsonv.str p.code), status := some s,
                     requestId := some (Jsonv.str p.request_id),
                     details := p.details.map Jsonv.str }) ∧
    (p.code = "upstream_error" ∨ p.code = "internal_server_error" →
      PoofError.fromResponse p.toJson s =
        Thrown.err { name := "ServerError", message := p.message,
                     code := some (Jsonv.str p.code), status := some s,
                     requestId := some (Jsonv.str p.request_id),
                     details := p.details.map Jsonv.str }) ∧
    (p.code = "constructor" →
      PoofError.fromResponse p.toJson s =
        Thrown.objectWrapper (some (Jsonv.str p.message))) ∧
    (p.code ∈ objectProtoMembers →
      PoofError.fromResponse p.toJson s = Thrown.typeError) ∧
    (p.code ∉ ["authentication_error", "permission_denied", "payment_required",
        "rate_limit_exceeded", "validation_error", "missing_image",
        "image_too_large", "upstream_error", "internal_server_error"] →
      p.code ∉ "constructor" :: objectProtoMembers →
      PoofError.fromResponse p.toJson s =
        Thrown.err { name := "PoofError", message := p.message,
                     code := some (Jsonv.str p.code), status := some s,
                     requestId := some (Jsonv.str p.request_id),
                     details := p.details.map Jsonv.str }) := by
  obtain ⟨c, m, d, r⟩ := p
  refine ⟨?_, ?_, ?_, ?_, ?_, ?_, ?_, ?_, ?_⟩
  · intro h; subst h; cases d <;> rfl
  · intro h; subst h; cases d <;> rfl
  · intro h; subst h; cases d <;> rfl
  · intro h; subst h; cases d <;> rfl
  · rintro (h | h | h) <;> (subst h; cases d <;> rfl)
  · rintro (h | h) <;> (subst h; cases d <;> rfl)
  · intro h; subst h; cases d <;> rfl
  · intro h
    simp only [objectProtoMembers, List.mem_cons, List.not_mem_nil,
      or_false] at h
    rcases h with h | h | h | h | h | h | h | h | h | h | h <;>
      (subst h; cases d <;> rfl)
  · intro h1 h2
    simp only [List.mem_cons, List.not_mem_nil, or_false, not_or] at h1
    obtain ⟨a1, a2, a3, a4, a5, a6, a7, a8, a9⟩ := h1
    simp only [objectProtoMembers, List.mem_cons, List.not_mem_nil, or_false,
      not_or] at h2
    obtain ⟨b0, b1, b2, b3, b4, b5, b6, b7, b8, b9, b10, b11⟩ := h2
    have hget : errorMapGet c = ErrorMapHit.miss := by
      simp [errorMapGet, errorMap, objectProtoMembers, a1, a2, a3, a4, a5, a6,
        a7, a8, a9, b0, b1, b2, b3, b4, b5, b6, b7, b8, b9, b10, b11]
    cases d <;>
      simp [PoofError.fromResponse, toJson_code, toJson_message,
        toJson_request_id, toJson_details, jsKeyString, jsToString, hget,
        errMessageOf]

/-- Witness for C2 amended at end-to-end scenario 3: a 402
`payment_required` payload classifies as `PaymentRequiredError` with status
402 and request id `r1`. -/
theorem c2_classify_witness :
    PoofError.fromResponse
        (ApiErrorResponse.toJson
          { code := "payment_required", message := "Insufficient credits",
            details := none, request_id := "r1" }) 402 =
      Thrown.err { name := "PaymentRequiredError",
                   message := "Insufficient credits",
                   code := some (Jsonv.str "payment_required"),
                   status := some 402, requestId := some (Jsonv.str "r1"),
                   details := none } :=
  (c2_classify
    { code := "payment_required", message := "Insufficient credits",
      details := none, request_id := "r1" } 402).2.2.1 rfl

/-- C3 counterexample: both normalization failures are plain `Error`
instances — the unsupported-input throw and the no-filesystem path throw
produce values of the same error class (`name = "Error"`, no `PoofError`
fields), so they are not two distinct typed error kinds; only their
messages differ. -/
theorem c3_counterexample :
    toBlob (ImageInput.other "number") { isNode := false, fs := fun _ => [] } =
      .error (plainError "Unsupported input type: number") ∧
    toBlob (ImageInput.path "a.png") { isNode := false, fs := fun _ => [] } =
      .error (plainError
        "File paths are only supported in Node.js. Use a Blob or File in the browser.") ∧
    (plainError "Unsupported input type: number").name =
      (plainError
        "File paths are only supported in Node.js. Use a Blob or File in the browser.").name :=
  ⟨rfl, rfl, rfl⟩

/-- C3 amended: `toBlob` fails on every input outside the closed set with a
plain `Error` whose message is `Unsupported input type: <typeof>`, and on
every path input without Node filesystem access with a plain `Error`
carrying the fixed Node-only message; the two failures are distinguished by
message, not by error class. -/
theorem c3_amended (t p : String) (env : Env) (hn : env.isNode = false) :
    toBlob (ImageInput.other t) env =
      .error (plainError ("Unsupported input type: " ++ t)) ∧
    toBlob (ImageInput.path p) env =
      .error (plainError
        "File paths are only supported in Node.js. Use a Blob or File in the browser.") := by
  constructor
  · rfl
  · simp [toBlob, hn]

/-- Witness for C3 amended in a browser-like environment, with the two
failure messages differing at this instance. -/
theorem c3_amended_witness :
    Env.isNode { isNode := false, fs := fun _ => [] } = false ∧
    toBlob (ImageInput.other "number") { isNode := false, fs := fun _ => [] } =
      .error (plainError "Unsupported input type: number") ∧
    (plainError "Unsupported input type: number").message ≠
      (plainError
        "File paths are only supported in Node.js. Use a Blob or File in the browser.").message :=
  ⟨rfl,
    (c3_amended "number" "a.png" { isNode := false, fs := fun _ => [] } rfl).1,
    by decide⟩

/-- C4: for every buffer input with no declared content type
(`Uint8Array`, `ArrayBuffer`, Node `Buffer`), `toBlob` keeps the bytes and
infers the content type exactly as the spec's priority chain
`specDetectMimeType` prescribes, and the detection reads at most the first
12 bytes. -/
theorem c4_buffer_signature_detection (bs : List Nat) (env : Env) :
    toBlob (ImageInput.uint8Array bs) env =
      .ok { bytes := bs, type := specDetectMimeType bs } ∧
    toBlob (ImageInput.arrayBuffer bs) env =
      .ok { bytes := bs, type := specDetectMimeType bs } ∧
    toBlob (ImageInput.nodeBuffer bs) env =
      .ok { bytes := bs, type := specDetectMimeType bs } ∧
    detectMimeType bs = detectMimeType (bs.take 12) := by
  refine ⟨?_, ?_, ?_, (detectMimeType_take12 bs).symm⟩ <;>
    simp [toBlob, detectMimeType_eq_spec]

/-- C6 counterexample: a 500 response whose body is valid JSON but not the
expected payload shape does not produce the claimed `unknown_error` /
`HTTP 500: Internal Server Error` generic error — `response.json()`
succeeds, so `handleError` instead classifies the malformed object,
yielding a base `PoofError` with `undefined` code and empty message. -/
theorem c6_counterexample :
    Poof.handleError respBadShape =
      Thrown.err { name := "PoofError", message := "", code := none,
                   status := some 500, requestId := none, details := none } ∧
    ({ name := "PoofError", message := "", code := none, status := some 500,
       requestId := none, details := none } : JsError).code ≠
      some (Jsonv.str "unknown_error") ∧
    ({ name := "PoofError", message := "", code := none, status := some 500,
       requestId := none, details := none } : JsError).message ≠
      "HTTP 500: Internal Server Error" := by
  refine ⟨rfl, by simp, by simp⟩

/-- C6 amended: for every non-success response whose body cannot be parsed
as JSON at all, `handleError` produces the base `PoofError` with code
`unknown_error`, message `HTTP <status>: <status text>`, the transport
status, and no request id or details. -/
theorem c6_amended (b : Bool) (s : Nat) (st : String) :
    Poof.handleError { ok := b, status := s, statusText := st, jsonBody := none } =
      Thrown.err
        { name := "PoofError", message := "HTTP " ++ toString s ++ ": " ++ st,
          code := some (Jsonv.str "unknown_error"), status := some s,
          requestId := none, details := none } := rfl

/-- C7: a call whose timeout fires (the armed `AbortController` aborts the
transport) resolves with exactly the `PoofError` of code `timeout` and
status 408 — a code outside `ERROR_MAP`, hence distinct from every
server-reported kind, and distinct from `unknown_error`. -/
theorem c7_timeout_error :
    Poof.fetchModel FetchOutcome.aborted =
      .error { name := "PoofError", message := "Request timeout",
               code := some (Jsonv.str "timeout"), status := some 408,
               requestId := none, details := none } ∧
    errorMap "timeout" = none ∧
    Jsonv.str "timeout" ≠ Jsonv.str "unknown_error" := by
  refine ⟨rfl, rfl, by simp⟩

/-- C8 counterexample: the caller supplies `bgColor` as the empty string —
a defined value of the option — yet the form omits `bg_color`, because the
source guards the field with JS truthiness and the empty string is falsy;
so the form does not contain exactly the supplied option fields. -/
theorem c8_counterexample :
    formLookup
      (Poof.buildFormData { bytes := [1], type := "image/png" } "image.png"
        { format := none, channels := none, bgColor := some "", size := none,
          crop := none }) "bg_color" = none ∧
    ({ format := none, channels := none, bgColor := some "", size := none,
       crop := none } : RemoveBackgroundOptions).bgColor ≠ none :=
  ⟨rfl, by simp⟩

/-- C8 amended: the outbound form holds the normalized payload under
`image_file` and exactly the supplied option fields, except that a supplied
empty-string `bg_color` is omitted (truthiness guard); `crop` is kept even
when `false` and serialized as the literal string `true`/`false`; no other
field ever appears. -/
theorem c8_amended (blob : BlobM) (fn : String) (o : RemoveBackgroundOptions) :
    formLookup (Poof.buildFormData blob fn o) "image_file" =
      some (FormVal.filePart blob.bytes blob.type fn) ∧
    formLookup (Poof.buildFormData blob fn o) "format" =
      o.format.map (fun f => FormVal.strField f.toStr) ∧
    formLookup (Poof.buildFormData blob fn o) "channels" =
      o.channels.map (fun c => FormVal.strField c.toStr) ∧
    formLookup (Poof.buildFormData blob fn o) "bg_color" =
      (match o.bgColor with
       | some s => if s = "" then none else some (FormVal.strField s)
       | none => none) ∧
    formLookup (Poof.buildFormData blob fn o) "size" =
      o.size.map (fun s => FormVal.strField s.toStr) ∧
    formLookup (Poof.buildFormData blob fn o) "crop" =
      o.crop.map (fun b => FormVal.strField (cond b "true" "false")) ∧
    (∀ k : String,
      k ∉ ["image_file", "format", "channels", "bg_color", "size", "crop"] →
      formLookup (Poof.buildFormData blob fn o) k = none) := by
  obtain ⟨f, ch, bg, sz, cr⟩ := o
  rcases f with _ | f <;> rcases ch with _ | ch <;> rcases sz with _ | sz <;>
    rcases cr with _ | cr <;> rcases bg with _ | bg
  all_goals try by_cases hbg : bg = ""
  all_goals try subst hbg
  all_goals (
    refine ⟨rfl, ?_, ?_, ?_, ?_, ?_, ?_⟩ <;>
    first
      | rfl
      | (intro k hk
         simp only [List.mem_cons, List.not_mem_nil, or_false, not_or] at hk
         obtain ⟨h1, h2, h3, h4, h5, h6⟩ := hk
         first
           | simp [Poof.buildFormData, formLookup, hbg, Ne.symm h1, Ne.symm h2,
               Ne.symm h3, Ne.symm h4, Ne.symm h5, Ne.symm h6]
           | simp [Poof.buildFormData, formLookup, Ne.symm h1, Ne.symm h2,
               Ne.symm h3, Ne.symm h4, Ne.symm h5, Ne.symm h6])
      | (simp [Poof.buildFormData, formLookup, hbg]))

/-- Witness for C8 amended at end-to-end scenario 2: options
`format = webp`, `crop = true` yield a form with `format=webp` and
`crop=true`, omitting `channels`, `bg_color`, `size` and every foreign
field. -/
theorem c8_amended_witness :
    formLookup
      (Poof.buildFormData { bytes := [1], type := "image/png" } "image.png"
        { format := some ImageFormat.webp, channels := none, bgColor := none,
          size := none, crop := some true }) "format" =
      some (FormVal.strField "webp") ∧
    formLookup
      (Poof.buildFormData { bytes := [1], type := "image/png" } "image.png"
        { format := some ImageFormat.webp, channels := none, bgColor := none,
          size := none, crop := some true }) "crop" =
      some (FormVal.strField "true") ∧
    formLookup
      (Poof.buildFormData { bytes := [1], type := "image/png" } "image.png"
        { format := some ImageFormat.webp, channels := none, bgColor := none,
          size := none, crop := some true }) "channels" = none ∧
    formLookup
      (Poof.buildFormData { bytes := [1], type := "image/png" } "image.png"
        { format := some ImageFormat.webp, channels := none, bgColor := none,
          size := none, crop := some true }) "bg_color" = none ∧
    formLookup
      (Poof.buildFormData { bytes := [1], type := "image/png" } "image.png"
        { format := some ImageFormat.webp, channels := none, bgColor := none,
          size := none, crop := some true }) "size" = none ∧
    formLookup
      (Poof.buildFormData { bytes := [1], type := "image/png" } "image.png"
        { format := some ImageFormat.webp, channels := none, bgColor := none,
          size := none, crop := some true }) "apiKey" = none := by
  have h := c8_amended { bytes := [1], type := "image/png" } "image.png"
    { format := some ImageFormat.webp, channels := none, bgColor := none,
      size := none, crop := some true }
  refine ⟨?_, ?_, ?_, ?_, ?_, h.2.2.2.2.2.2 "apiKey" (by decide)⟩
  · simpa using h.2.1
  · simpa using h.2.2.2.2.2.1
  · simpa using h.2.2.1
  · simpa using h.2.2.2.1
  · simpa using h.2.2.2.2.1

/-- C9: an input that already carries an explicit content type (`File` or
`Blob`) passes through `toBlob` with bytes and type unchanged, and a
`File`'s name is preserved by `getFilename`. -/
theorem c9_explicit_type_passthrough (bytes : List Nat) (t fname m : String)
    (env : Env) :
    toBlob (ImageInput.file bytes t fname) env = .ok { bytes := bytes, type := t } ∧
    toBlob (ImageInput.blob bytes t) env = .ok { bytes := bytes, type := t } ∧
    getFilename (ImageInput.file bytes t fname) m env = fname :=
  ⟨rfl, rfl, rfl⟩

/-- C10: signature detection is total and insensitive to anything past the
first 12 bytes — out-of-range reads behave as `undefined` and fail the
comparisons — and every buffer shorter than the shortest signature
(3 bytes), the empty buffer included, yields `application/octet-stream`. -/
theorem c10_detect_total (buf : List Nat) :
    detectMimeType (buf.take 12) = detectMimeType buf ∧
    (buf.length < 3 → detectMimeType buf = "application/octet-stream") := by
  refine ⟨detectMimeType_take12 buf, fun h => ?_⟩
  rcases buf with _ | ⟨a, _ | ⟨b, _ | ⟨c, t⟩⟩⟩
  · rfl
  · simp [detectMimeType]
  · simp [detectMimeType]
  · simp at h; omega

/-- Witness for C10 at a 1-byte buffer holding only the first PNG
signature byte. -/
theorem c10_detect_total_witness :
    (([0x89] : List Nat)).length < 3 ∧
    detectMimeType [0x89] = "application/octet-stream" :=
  ⟨by decide, (c10_detect_total [0x89]).2 (by decide)⟩
